import Mathlib

/-!
Verification of the `misc-tools` repository (two command-line tools:
`dump_src.py`, which concatenates a source tree into one annotated stream,
and `md2pdf.py`, a Markdown-to-PDF wrapper).

Shallow embedding conventions:

* A filesystem path is modelled as its list of components (`List String`),
  in the order produced by `pathlib`'s normalisation (single-dot components
  removed).  `str(path)` is modelled by joining the components with "/".
* `path.resolve()` is modelled as data: each candidate entry carries both its
  as-constructed component list (`parts`) and its resolved component list
  (`resolved`), since resolution consults the filesystem state, which the
  model treats as given.
* Each Python `print(x)` call to a stream is modelled as appending the single
  string `x` to that stream's list (the implicit trailing newline is part of
  the `print` semantics, identical for every call, so it is not recorded).
  The sink (stdout or the output file) and the diagnostic stream (stderr)
  are separate lists.
* `Path.read_text()` is modelled at the byte level: strict UTF-8 decoding of
  the file's bytes followed by universal-newline translation ("\r\n" and
  lone "\r" become "\n"), which is CPython's text-mode behaviour with the
  default arguments.  A decoding failure models `UnicodeDecodeError`; an
  operating-system failure of the read (permission error, I/O error) is
  modelled by the `ReadOutcome.oserror` constructor and propagates out of
  `dump_file` as an exception.
-/

/-- `s.startswith(pre)`, computed on character lists. -/
def strStartsWith (s pre : String) : Bool :=
  pre.toList.isPrefixOf s.toList

/-- `s.endswith(suf)`, computed on character lists. -/
def strEndsWith (s suf : String) : Bool :=
  suf.toList.isSuffixOf s.toList

/-- ASCII lowercasing of one character (`str.lower` restricted to the ASCII
range, which covers every extension the dispatch table recognises). -/
def lowerChar (c : Char) : Char :=
  if 'A' ≤ c ∧ c ≤ 'Z' then Char.ofNat (c.toNat + 32) else c

/-- `s.lower()`, computed on character lists. -/
def strToLower (s : String) : String :=
  String.mk (s.toList.map lowerChar)

/-- Lexicographic strict order on strings by code point (Python's `str`
comparison), computed on character lists. -/
def charListLt : List Char → List Char → Bool
  | [], [] => false
  | [], _ :: _ => true
  | _ :: _, [] => false
  | a :: as, b :: bs => if a = b then charListLt as bs else decide (a < b)

/-- One component-list path rendered the way `str(path)` renders a relative
`pathlib.Path`: components joined by "/". -/
def pathStr (parts : List String) : String :=
  String.intercalate "/" parts

/-- `dump_src.is_excluded` (src/misc_tools/dump_src.py:26-43).  The candidate's
resolved path is compared against each (already resolved) exclusion entry:
excluded when it equals the entry, or when `resolved.relative_to(entry)`
succeeds, i.e. the entry's components are a prefix of the candidate's
components. -/
def is_excluded (resolvedPath : List String) (excludePaths : List (List String)) : Bool :=
  excludePaths.any (fun exclude =>
    resolvedPath == exclude || exclude.isPrefixOf resolvedPath)

/-- `pathlib.PurePath.suffix` on the character list of the final component:
the last dot together with everything after it, provided that dot is
neither the first nor the last character of the name; otherwise empty. -/
def pySuffixChars (cs : List Char) : List Char :=
  let tail := (cs.reverse.takeWhile (fun c => c ≠ '.')).reverse
  if cs.contains '.' then
    let i := cs.length - tail.length - 1
    if 0 < i ∧ i < cs.length - 1 then '.' :: tail else []
  else []

/-- `pathlib.PurePath.suffix` as a string. -/
def pySuffix (name : String) : String :=
  String.mk (pySuffixChars name.toList)

/-- `actual_suffix = path.suffix[1:].lower()` (dump_src.py:185).  Lowercasing
is modelled for ASCII letters, which covers every extension the table
recognises. -/
def actualSuffix (name : String) : String :=
  String.mk (((pySuffixChars name.toList).drop 1).map lowerChar)

/-- A UTF-8 continuation byte. -/
def isCont (c : Nat) : Bool := 0x80 ≤ c && c ≤ 0xBF

/-- Admissible first continuation byte of a three-byte sequence headed by
`b` (strict decoder: overlong forms and surrogates rejected). -/
def contOk3 (b c1 : Nat) : Bool :=
  if b = 0xE0 then 0xA0 ≤ c1 && c1 ≤ 0xBF
  else if b = 0xED then 0x80 ≤ c1 && c1 ≤ 0x9F
  else isCont c1

/-- Admissible first continuation byte of a four-byte sequence headed by
`b` (strict decoder: overlong forms and values above U+10FFFF rejected). -/
def contOk4 (b c1 : Nat) : Bool :=
  if b = 0xF0 then 0x90 ≤ c1 && c1 ≤ 0xBF
  else if b = 0xF4 then 0x80 ≤ c1 && c1 ≤ 0x8F
  else isCont c1

/-- Strict UTF-8 decoding of a byte list to a list of code points; `none`
models `UnicodeDecodeError`. -/
def utf8Decode : List Nat → Option (List Nat)
  | [] => some []
  | b :: rest =>
    if b ≤ 0x7F then
      (utf8Decode rest).map (fun cps => b :: cps)
    else if 0xC2 ≤ b && b ≤ 0xDF then
      match rest with
      | c1 :: rest1 =>
        if isCont c1 then
          (utf8Decode rest1).map (fun cps => ((b - 0xC0) * 64 + (c1 - 0x80)) :: cps)
        else none
      | [] => none
    else if 0xE0 ≤ b && b ≤ 0xEF then
      match rest with
      | c1 :: c2 :: rest2 =>
        if contOk3 b c1 && isCont c2 then
          (utf8Decode rest2).map
            (fun cps => ((b - 0xE0) * 4096 + (c1 - 0x80) * 64 + (c2 - 0x80)) :: cps)
        else none
      | _ => none
    else if 0xF0 ≤ b && b ≤ 0xF4 then
      match rest with
      | c1 :: c2 :: c3 :: rest3 =>
        if contOk4 b c1 && isCont c2 && isCont c3 then
          (utf8Decode rest3).map
            (fun cps =>
              ((b - 0xF0) * 262144 + (c1 - 0x80) * 4096 + (c2 - 0x80) * 64 + (c3 - 0x80)) :: cps)
        else none
      | _ => none
    else none

/-- Universal-newline translation performed by text-mode reading with the
default `newline=None`: "\r\n" and lone "\r" both become "\n". -/
def translateNL : List Nat → List Nat
  | [] => []
  | 13 :: 10 :: rest => 10 :: translateNL rest
  | 13 :: rest => 10 :: translateNL rest
  | c :: rest => c :: translateNL rest

/-- `Path.read_text()` with default arguments: strict UTF-8 decode, then
universal-newline translation; `none` models `UnicodeDecodeError`. -/
def read_text (bs : List Nat) : Option String :=
  (utf8Decode bs).map (fun cps => String.mk ((translateNL cps).map Char.ofNat))

/-- Outcome of attempting to read a file's raw content: its bytes, or an
operating-system error (permission/IO), which `read_text` raises. -/
inductive ReadOutcome where
  | bytes (bs : List Nat)
  | oserror (msg : String)
deriving DecidableEq

/-- A filesystem entry handed to the renderer: the path as constructed by
the collection loop (`parts`), its resolution (`resolved`, data because
resolution consults the filesystem), whether it is (still) a regular file,
and the outcome of reading it. -/
structure Entry where
  parts : List String
  resolved : List String
  isFile : Bool
  read : ReadOutcome
deriving DecidableEq

/-- `path.name`: the final path component (empty for an empty path). -/
def entryName (f : Entry) : String :=
  (f.parts.getLast?).getD ""

/-- The banner-style classes of `dump_file`'s `match` statement
(dump_src.py:186-210). -/
inductive ExtClass where
  | hash | slash | markup | block | skipBin | skipAsset | unknown
deriving DecidableEq

/-- Extension-to-banner-class dispatch, one arm per `case` of the source's
`match actual_suffix` (dump_src.py:186-210). -/
def classify (ext : String) : ExtClass :=
  if ext = "py" || ext = "php" then .hash
  else if ext = "js" || ext = "ts" then .slash
  else if ext = "md" || ext = "html" || ext = "xml" || ext = "txt" || ext = "json"
       || ext = "yaml" || ext = "yml" || ext = "conf" then .markup
  else if ext = "java" || ext = "groovy" || ext = "c" || ext = "cpp" || ext = "h"
       || ext = "css" || ext = "oss" then .block
  else if ext = "pyc" || ext = "db" then .skipBin
  else if ext = "lock" || ext = "png" || ext = "jpg" || ext = "jpeg" || ext = "gif"
       || ext = "svg" || ext = "ico" || ext = "drawio" then .skipAsset
  else .unknown

/-- `n * c` string repetition. -/
def repChar (n : Nat) (c : Char) : String := String.mk (List.replicate n c)

/-- The lines each non-skip class prints to the sink before the blank line
(dump_src.py:187-210). -/
def bannerSink (cls : ExtClass) (p : String) : List String :=
  match cls with
  | .hash => [repChar 78 '#', "# File: " ++ p, repChar 78 '#']
  | .slash => ["// " ++ repChar 70 '-', "// File: " ++ p, "// " ++ repChar 70 '-']
  | .markup => ["<!-- " ++ repChar 70 '-' ++ "-->", "<!-- File: " ++ p ++ " -->",
                "<!-- " ++ repChar 70 '-' ++ "-->"]
  | .block => ["/* " ++ repChar 70 '-' ++ " */", "/* File: " ++ p ++ " */",
               "/* " ++ repChar 70 '-' ++ " */"]
  | .unknown => ["File: " ++ p, "" ++ repChar 70 '-']
  | _ => []

/-- The diagnostic-stream lines the banner stage emits: only the unknown
class writes one (dump_src.py:208). -/
def bannerDiag (cls : ExtClass) (ext : String) : List String :=
  match cls with
  | .unknown => ["Unknown file type " ++ ext]
  | _ => []

/-- Diagnostic for a `UnicodeDecodeError` (dump_src.py:216-219). -/
def cannotReadMsg (p : String) : String :=
  "Error: Cannot read file " ++ p ++ " as text. It may be binary or corrupted."

/-- What one `dump_file` call does: lines written to the sink, lines written
to the diagnostic stream, and the uncaught exception, if any, that escaped
(partial output written before the exception is kept). -/
structure RenderResult where
  sink : List String
  diag : List String
  exc : Option String
deriving DecidableEq

/-- `dump_src.dump_file` (dump_src.py:175-226), as a function from the entry
to its effect on the two streams.  Only `UnicodeDecodeError` is caught
inside; an OS error from the read escapes as `exc` after the banner and the
blank line have already been written. -/
def dump_file (f : Entry) : RenderResult :=
  if f.isFile = false then ⟨[], [], none⟩
  else if strStartsWith (entryName f) "." then ⟨[], [], none⟩
  else if f.parts.any (fun part => strStartsWith part ".") then ⟨[], [], none⟩
  else
    let p := pathStr f.parts
    let ext := actualSuffix (entryName f)
    let cls := classify ext
    if cls = .skipBin || cls = .skipAsset then ⟨[], [], none⟩
    else
      let banner := bannerSink cls p
      let bdiag := bannerDiag cls ext
      match f.read with
      | .oserror msg => ⟨banner ++ [""], bdiag, some msg⟩
      | .bytes bs =>
        match read_text bs with
        | none => ⟨banner ++ [""], bdiag ++ [cannotReadMsg p], none⟩
        | some text =>
          ⟨banner ++ ["", text, "", ""],
           bdiag ++ [toString text.length ++ " bytes - " ++ p], none⟩

/-- The `try dump_file(path) except Exception` body of `main`'s per-file loop
(dump_src.py:164-167): an escaped exception is turned into a diagnostic line
naming the path and the error, after any partial output the renderer already
produced. -/
def renderOne (f : Entry) : List String × List String :=
  let r := dump_file f
  match r.exc with
  | some e => (r.sink, r.diag ++ ["Error processing file " ++ pathStr f.parts ++ ": " ++ e])
  | none => (r.sink, r.diag)

/-- `if output_path and path.resolve() == output_path` (dump_src.py:157):
with an output file in use, a candidate resolving to the output path is
skipped.  (`output_path` is a `Path` when set, hence always truthy.) -/
def skipAsOutput (output : Option (List String)) (f : Entry) : Bool :=
  match output with
  | some o => f.resolved == o
  | none => false

/-- `main`'s loop over the collected files (dump_src.py:155-167): skip the
resolved output path (when an output file is in use), skip excluded paths,
otherwise render, catching any exception.  Returns the sink lines and the
diagnostic lines of the whole loop. -/
def processFiles (output : Option (List String)) (excludePaths : List (List String)) :
    List Entry → List String × List String
  | [] => ([], [])
  | f :: rest =>
    if skipAsOutput output f then
      processFiles output excludePaths rest
    else if is_excluded f.resolved excludePaths then
      processFiles output excludePaths rest
    else
      let (s, d) := renderOne f
      let (s2, d2) := processFiles output excludePaths rest
      (s ++ s2, d ++ d2)

/-- Lexicographic `<=` on component lists under string order: how `sorted`
compares `pathlib` paths (tuple comparison of their parts). -/
def partsLe : List String → List String → Bool
  | [], _ => true
  | _ :: _, [] => false
  | a :: as, b :: bs => if a = b then partsLe as bs else charListLt a.toList b.toList

/-- Insert into a sorted list, keeping earlier elements first on ties
(the stability a Python `sorted` guarantees). -/
def insertSorted (le : α → α → Bool) (a : α) : List α → List α
  | [] => [a]
  | b :: bs => if le a b then a :: b :: bs else b :: insertSorted le a bs

/-- Stable sort by insertion (`sorted` of Python, with `le` as the
not-greater-than test of the element order). -/
def pySorted (le : α → α → Bool) : List α → List α
  | [] => []
  | a :: as => insertSorted le a (pySorted le as)

/-- The element order `sorted` uses on the collected entries: `pathlib`
paths compare by their component tuples. -/
def entryLe (a b : Entry) : Bool := partsLe a.parts b.parts

/-- The suffix-filter branch of `main`'s per-root collection
(dump_src.py:143-148): for each suffix, gather the entries beneath the root
that `rglob("*." + suffix)` matches — those whose final name ends with
`"." + suffix` (suffixes are modelled as plain strings without glob
metacharacters) — then de-duplicate and sort.  `entries` stands for every
entry beneath the root, directories included. -/
def collect_with_suffixes (entries : List Entry) (suffixes : List String) : List Entry :=
  pySorted entryLe ((suffixes.flatMap (fun s =>
      entries.filter (fun f => strEndsWith (entryName f) ("." ++ s)))).dedup)

/-- The no-filter branch of `main`'s per-root collection (dump_src.py:150):
`sorted(src_path.rglob("*"))`, every entry beneath the root in sorted
order. -/
def collect_all (entries : List Entry) : List Entry :=
  pySorted entryLe entries

/-- An argument to `md2pdf.main`, modelled as its (normalised) path string
together with whether it names an existing regular file. -/
structure MdArg where
  path : String
  isFile : Bool
deriving DecidableEq

/-- `pathlib` `name` of a path string: the part after the last "/". -/
def mdName (p : String) : String :=
  String.mk ((p.toList.reverse.takeWhile (fun c => c ≠ '/')).reverse)

/-- `path.with_suffix(".pdf")`: drop the existing suffix (if any) from the
end and append ".pdf". -/
def withPdfSuffix (p : String) : String :=
  String.mk (p.toList.take (p.toList.length - (pySuffix (mdName p)).length)) ++ ".pdf"

/-- The `pandoc` invocation `md2pdf.main` builds for an accepted argument
(md2pdf.py:19). -/
def pandocCmd (p : String) : List String :=
  ["pandoc", "-o", withPdfSuffix p, "-t", "html", p]

/-- `md2pdf.main` (md2pdf.py:6-20) over its argument list, given the exit
code each external command would return.  Result: the diagnostic lines
printed, the external commands actually run, and whether the run aborted
(a non-zero exit makes `subprocess.run(..., check=True)` raise
`CalledProcessError`, which nothing catches, so the remaining arguments are
never processed). -/
def md2pdf_run (exitOf : List String → Nat) :
    List MdArg → List String × List (List String) × Bool
  | [] => ([], [], false)
  | a :: rest =>
    if a.isFile = false then
      let (d, i, ab) := md2pdf_run exitOf rest
      (("Error: " ++ a.path ++ " is not a file.") :: d, i, ab)
    else if pySuffix (mdName a.path) ≠ ".md" then
      let (d, i, ab) := md2pdf_run exitOf rest
      (("Error: " ++ a.path ++ " is not a markdown file.") :: d, i, ab)
    else
      let cmd := pandocCmd a.path
      if exitOf cmd = 0 then
        let (d, i, ab) := md2pdf_run exitOf rest
        (d, cmd :: i, ab)
      else
        ([], [cmd], true)


/-! Helper lemmas and sanity checks. -/

/-- Appending to the empty string is the identity. -/
theorem empty_string_append (s : String) : "" ++ s = s := rfl

/-- Membership is preserved by sorted insertion. -/
theorem mem_insertSorted {α : Type} (le : α → α → Bool) (x a : α) (l : List α) :
    a ∈ insertSorted le x l ↔ a = x ∨ a ∈ l := by
  induction l with
  | nil => simp [insertSorted]
  | cons b bs ih =>
    by_cases h : le x b
    · simp [insertSorted, h]
    · simp [insertSorted, h, ih]
      tauto

/-- Membership is preserved by `pySorted`. -/
theorem mem_pySorted {α : Type} (le : α → α → Bool) (a : α) (l : List α) :
    a ∈ pySorted le l ↔ a ∈ l := by
  induction l with
  | nil => simp [pySorted]
  | cons b bs ih => simp [pySorted, mem_insertSorted, ih]

/-- A path with a hidden component anywhere renders nothing: `dump_file`
returns before producing any output (dump_src.py:179-183). -/
theorem dump_file_of_hiddenPart (f : Entry)
    (h : f.parts.any (fun part => strStartsWith part ".") = true) :
    dump_file f = ⟨[], [], none⟩ := by
  unfold dump_file
  simp [h]

example : read_text [97, 13, 10, 98] = some "a\nb" := by decide
example : read_text [0xFF] = none := by decide
example : read_text [0xC3, 0xA9] = some "é" := by decide
example : pySuffix "a.py" = ".py" := by decide
example : pySuffix ".py" = "" := by decide
example : actualSuffix "a.PY" = "py" := by decide

/-- C1: a candidate path is excluded exactly when some exclusion entry
equals its resolved path or is an ancestor of it, component-wise; sibling
paths that merely share a string prefix with an exclusion entry are not
excluded. -/
theorem C1_exclusion_is_component_prefix_test :
    (∀ (p : List String) (ex : List (List String)),
        is_excluded p ex = true ↔ ∃ e ∈ ex, p = e ∨ e <+: p) ∧
    is_excluded ["a", "bee"] [["a", "b"]] = false ∧
    is_excluded ["build2"] [["build"]] = false := by
  refine ⟨fun p ex => ?_, by decide, by decide⟩
  simp only [is_excluded, List.any_eq_true, Bool.or_eq_true, beq_iff_eq,
    List.isPrefixOf_iff_prefix]

/-- C1 witness: a nested path under an excluded directory is excluded. -/
theorem C1_exclusion_is_component_prefix_test_witness :
    is_excluded ["a", "b", "c"] [["a", "b"]] = true :=
  (C1_exclusion_is_component_prefix_test.1 ["a", "b", "c"] [["a", "b"]]).mpr
    ⟨["a", "b"], by decide, Or.inr (by decide)⟩

/-- C2: with a file output sink, the run's output is unchanged when every
candidate resolving to the output path is removed from the candidate list —
such candidates are never rendered, whatever the exclusion set. -/
theorem C2_output_file_never_rendered :
    ∀ (o : List String) (excl : List (List String)) (files : List Entry),
      processFiles (some o) excl files =
        processFiles (some o) excl (files.filter (fun f => !(f.resolved == o))) := by
  intro o excl files
  induction files with
  | nil => rfl
  | cons f rest ih =>
    cases h : (f.resolved == o) with
    | true => simp [processFiles, skipAsOutput, h, ih]
    | false =>
      by_cases h2 : is_excluded f.resolved excl
      · simp [processFiles, skipAsOutput, h, h2, ih]
      · simp [processFiles, skipAsOutput, h, h2, ih]

/-- C2 witness: an output file lying inside the scanned directory, with no
exclusion naming it, produces no output at all when it is the only
candidate. -/
theorem C2_output_file_never_rendered_witness :
    processFiles (some ["r", "out.txt"]) []
      [⟨["out.txt"], ["r", "out.txt"], true, .bytes [104]⟩] = ([], []) := by
  rw [C2_output_file_never_rendered]
  decide

/-- C3 counterexample: `A.PY` has lowercased extension `py`, which is in the
filter set `["py"]`, yet the collection — `rglob("*.py")`, a case-sensitive
match — returns nothing, so the claimed characterisation of the collected
set fails at this input. -/
theorem C3_counterexample :
    actualSuffix (entryName ⟨["A.PY"], ["r", "A.PY"], true, .bytes []⟩) = "py" ∧
    ("py" ∈ (["py"] : List String)) ∧
    collect_with_suffixes [⟨["A.PY"], ["r", "A.PY"], true, .bytes []⟩] ["py"] = [] := by
  decide

/-- C3 amended: for a directory root with a non-empty suffix filter, the
collected entries are exactly those whose name ends with `"." + suffix` for
some filter suffix, a case-sensitive literal match (entries gathered per
suffix, de-duplicated and sorted); no lowercasing is applied on either
side. -/
theorem C3_collection_is_case_sensitive_suffix_match :
    ∀ (entries : List Entry) (suffixes : List String) (f : Entry),
      f ∈ collect_with_suffixes entries suffixes ↔
        f ∈ entries ∧ ∃ s ∈ suffixes, strEndsWith (entryName f) ("." ++ s) = true := by
  intro entries suffixes f
  simp only [collect_with_suffixes, mem_pySorted, List.mem_dedup, List.mem_flatMap,
    List.mem_filter]
  tauto

/-- C3 witness: a lowercase `a.py` is collected by the filter `["py"]`. -/
theorem C3_collection_is_case_sensitive_suffix_match_witness :
    (⟨["a.py"], ["r", "a.py"], true, .bytes []⟩ : Entry) ∈
      collect_with_suffixes [⟨["a.py"], ["r", "a.py"], true, .bytes []⟩] ["py"] :=
  (C3_collection_is_case_sensitive_suffix_match
      [⟨["a.py"], ["r", "a.py"], true, .bytes []⟩] ["py"]
      ⟨["a.py"], ["r", "a.py"], true, .bytes []⟩).mpr
    ⟨by decide, "py", by decide, by decide⟩

/-- C4: when rendering a candidate raises (here: an OS error escaping the
read), the loop catches it, appends a diagnostic naming the path and the
error, keeps any partial sink output the renderer wrote, and still
processes every candidate after it — the run is not aborted. -/
theorem C4_render_exception_reported_and_run_continues :
    ∀ (o : Option (List String)) (excl : List (List String)) (pre post : List Entry)
      (f : Entry) (msg : String),
      skipAsOutput o f = false →
      is_excluded f.resolved excl = false →
      (dump_file f).exc = some msg →
      processFiles o excl (pre ++ f :: post) =
        ((processFiles o excl pre).1 ++ (dump_file f).sink ++ (processFiles o excl post).1,
         (processFiles o excl pre).2 ++ (dump_file f).diag
           ++ ["Error processing file " ++ pathStr f.parts ++ ": " ++ msg]
           ++ (processFiles o excl post).2) := by
  intro o excl pre post f msg h1 h2 h3
  induction pre with
  | nil =>
    simp [processFiles, h1, h2, renderOne, h3]
  | cons g rest ih =>
    by_cases hg1 : skipAsOutput o g
    · simp [processFiles, hg1, ih]
    · by_cases hg2 : is_excluded g.resolved excl
      · simp [processFiles, hg1, hg2, ih]
      · simp [processFiles, hg1, hg2, ih]

/-- C4 witness: a permission error on `a.py` yields its banner plus an error
diagnostic, and the following file `b.py` is still dumped. -/
theorem C4_render_exception_reported_and_run_continues_witness :
    processFiles none []
      ([] ++ (⟨["a.py"], ["r", "a.py"], true, .oserror "Permission denied"⟩ : Entry)
        :: [⟨["b.py"], ["r", "b.py"], true, .bytes [104]⟩]) =
      ([repChar 78 '#', "# File: a.py", repChar 78 '#', "",
        repChar 78 '#', "# File: b.py", repChar 78 '#', "", "h", "", ""],
       ["Error processing file a.py: Permission denied", "1 bytes - b.py"]) :=
  (C4_render_exception_reported_and_run_continues none [] []
      [⟨["b.py"], ["r", "b.py"], true, .bytes [104]⟩]
      ⟨["a.py"], ["r", "a.py"], true, .oserror "Permission denied"⟩
      "Permission denied" rfl rfl (by decide)).trans (by decide)

/-- C5: a candidate of a non-skip extension class whose bytes do not decode
as text gets its banner and the blank line written to the sink, then a
decode-failure diagnostic naming the file, no content lines, and no
exception — processing continues with the next candidate. -/
theorem C5_decode_failure_keeps_banner_no_content :
    ∀ (f : Entry) (bs : List Nat),
      f.isFile = true →
      strStartsWith (entryName f) "." = false →
      f.parts.any (fun part => strStartsWith part ".") = false →
      classify (actualSuffix (entryName f)) ≠ .skipBin →
      classify (actualSuffix (entryName f)) ≠ .skipAsset →
      f.read = .bytes bs →
      read_text bs = none →
      dump_file f =
        ⟨bannerSink (classify (actualSuffix (entryName f))) (pathStr f.parts) ++ [""],
         bannerDiag (classify (actualSuffix (entryName f))) (actualSuffix (entryName f))
           ++ [cannotReadMsg (pathStr f.parts)], none⟩ := by
  intro f bs h1 h2 h3 h4 h5 h6 h7
  unfold dump_file
  simp [h1, h2, h3, h4, h5, h6, h7]

/-- C5 witness: `b.py` holding the invalid byte 0xFF gets its three-line
hash banner and blank line, a decode diagnostic, and no content. -/
theorem C5_decode_failure_keeps_banner_no_content_witness :
    dump_file ⟨["b.py"], ["r", "b.py"], true, .bytes [255]⟩ =
      ⟨[repChar 78 '#', "# File: b.py", repChar 78 '#', ""],
       ["Error: Cannot read file b.py as text. It may be binary or corrupted."], none⟩ :=
  (C5_decode_failure_keeps_banner_no_content
      ⟨["b.py"], ["r", "b.py"], true, .bytes [255]⟩ [255]
      rfl (by decide) (by decide) (by decide) (by decide) rfl (by decide)).trans (by decide)

/-- C6 counterexample: for `z.unknownext` the sink lines written before the
blank separator — the banner — number two (`File: ...` and a dash rule),
not one as the claim states. -/
theorem C6_counterexample :
    ((dump_file ⟨["z.unknownext"], ["r", "z.unknownext"], true, .bytes [104]⟩).sink.takeWhile
        (fun l => !(l == ""))).length = 2 ∧
    ¬ ((dump_file ⟨["z.unknownext"], ["r", "z.unknownext"], true, .bytes [104]⟩).sink.takeWhile
        (fun l => !(l == ""))).length = 1 := by
  decide

/-- C6 amended: a candidate with an unrecognised extension gets a two-line
diagnostic banner on the sink (a `File:` line followed by a dash rule,
instead of a three-line typed banner), a diagnostic on the error stream
naming the unknown extension, and its content is still dumped. -/
theorem C6_unknown_extension_diagnostic_banner_and_dump :
    ∀ (f : Entry) (bs : List Nat) (text : String),
      f.isFile = true →
      strStartsWith (entryName f) "." = false →
      f.parts.any (fun part => strStartsWith part ".") = false →
      classify (actualSuffix (entryName f)) = .unknown →
      f.read = .bytes bs →
      read_text bs = some text →
      dump_file f =
        ⟨["File: " ++ pathStr f.parts, repChar 70 '-', "", text, "", ""],
         ["Unknown file type " ++ actualSuffix (entryName f),
          toString text.length ++ " bytes - " ++ pathStr f.parts], none⟩ := by
  intro f bs text h1 h2 h3 h4 h5 h6
  unfold dump_file
  simp [h1, h2, h3, h4, h5, h6, bannerSink, bannerDiag, empty_string_append]

/-- C6 witness: `z.unknownext` with content `h`. -/
theorem C6_unknown_extension_diagnostic_banner_and_dump_witness :
    dump_file ⟨["z.unknownext"], ["r", "z.unknownext"], true, .bytes [104]⟩ =
      ⟨["File: z.unknownext", repChar 70 '-', "", "h", "", ""],
       ["Unknown file type unknownext", "1 bytes - z.unknownext"], none⟩ :=
  (C6_unknown_extension_diagnostic_banner_and_dump
      ⟨["z.unknownext"], ["r", "z.unknownext"], true, .bytes [104]⟩ [104] "h"
      rfl (by decide) (by decide) (by decide) rfl (by decide)).trans (by decide)

/-- C7 counterexample: a four-byte file `a.py` containing `a\r\nb` decodes
(with universal-newline translation) to the three-character text `a\nb`, and
the trailer reports `3 bytes - a.py`, not the file's byte length of four —
so "decoded byte length of the file" fails at this input. -/
theorem C7_counterexample :
    (dump_file ⟨["a.py"], ["r", "a.py"], true, .bytes [97, 13, 10, 98]⟩).diag
        = ["3 bytes - a.py"] ∧
    ([97, 13, 10, 98] : List Nat).length = 4 ∧
    ¬ (dump_file ⟨["a.py"], ["r", "a.py"], true, .bytes [97, 13, 10, 98]⟩).diag
        = ["4 bytes - a.py"] := by
  decide

/-- C7 amended: on successful decode the renderer writes the decoded text
verbatim to the sink followed by two blank lines, then a trailer on the
diagnostic stream of the form `<count> bytes - <path>` where `<count>` is
the character count of the decoded text (the length the source computes as
`len(text)`), not the file's byte length. -/
theorem C7_success_writes_text_and_length_trailer :
    ∀ (f : Entry) (bs : List Nat) (text : String),
      f.isFile = true →
      strStartsWith (entryName f) "." = false →
      f.parts.any (fun part => strStartsWith part ".") = false →
      classify (actualSuffix (entryName f)) ≠ .skipBin →
      classify (actualSuffix (entryName f)) ≠ .skipAsset →
      f.read = .bytes bs →
      read_text bs = some text →
      dump_file f =
        ⟨bannerSink (classify (actualSuffix (entryName f))) (pathStr f.parts)
            ++ ["", text, "", ""],
         bannerDiag (classify (actualSuffix (entryName f))) (actualSuffix (entryName f))
            ++ [toString text.length ++ " bytes - " ++ pathStr f.parts], none⟩ := by
  intro f bs text h1 h2 h3 h4 h5 h6 h7
  unfold dump_file
  simp [h1, h2, h3, h4, h5, h6, h7]

/-- C7 witness: `n.txt` containing `hi` gets its markup banner, the verbatim
text, two blank lines, and the trailer `2 bytes - n.txt`. -/
theorem C7_success_writes_text_and_length_trailer_witness :
    dump_file ⟨["n.txt"], ["r", "n.txt"], true, .bytes [104, 105]⟩ =
      ⟨["<!-- " ++ repChar 70 '-' ++ "-->", "<!-- File: n.txt -->",
        "<!-- " ++ repChar 70 '-' ++ "-->", "", "hi", "", ""],
       ["2 bytes - n.txt"], none⟩ :=
  (C7_success_writes_text_and_length_trailer
      ⟨["n.txt"], ["r", "n.txt"], true, .bytes [104, 105]⟩ [104, 105] "hi"
      rfl (by decide) (by decide) (by decide) (by decide) rfl (by decide)).trans (by decide)

/-- C8: a candidate whose lowercased extension lies in one of the two skip
classes produces no sink line, no diagnostic line, and no exception — the
skip is completely silent. -/
theorem C8_skip_extensions_completely_silent :
    ∀ f : Entry,
      actualSuffix (entryName f) ∈
        (["pyc", "db", "lock", "png", "jpg", "jpeg", "gif", "svg", "ico",
          "drawio"] : List String) →
      dump_file f = ⟨[], [], none⟩ := by
  intro f hmem
  have hcls : classify (actualSuffix (entryName f)) = .skipBin ∨
      classify (actualSuffix (entryName f)) = .skipAsset := by
    simp only [List.mem_cons, List.not_mem_nil, or_false] at hmem
    rcases hmem with h | h | h | h | h | h | h | h | h | h <;> rw [h] <;> decide
  rcases hcls with h | h <;> (unfold dump_file; simp [h])

/-- C8 witness: `x.lock` is skipped with no output at all. -/
theorem C8_skip_extensions_completely_silent_witness :
    dump_file ⟨["x.lock"], ["r", "x.lock"], true, .bytes [104]⟩ = ⟨[], [], none⟩ :=
  C8_skip_extensions_completely_silent
    ⟨["x.lock"], ["r", "x.lock"], true, .bytes [104]⟩ (by decide)

/-- C9: a path with any component starting with "." — including components
contributed by the user-supplied root — renders nothing; consequently a run
whose root lies inside a hidden directory (every candidate's constructed
path extends the root's components) produces no sink output and no
diagnostics at all. -/
theorem C9_hidden_component_silences_run :
    (∀ f : Entry, f.parts.any (fun part => strStartsWith part ".") = true →
        dump_file f = ⟨[], [], none⟩) ∧
    (∀ (o : Option (List String)) (excl : List (List String)) (rootParts : List String)
        (files : List Entry),
        rootParts.any (fun part => strStartsWith part ".") = true →
        (∀ f ∈ files, ∃ rel, f.parts = rootParts ++ rel) →
        processFiles o excl files = ([], [])) := by
  refine ⟨dump_file_of_hiddenPart, ?_⟩
  intro o excl rootParts files hroot hsub
  induction files with
  | nil => rfl
  | cons f rest ih =>
    have hf : f.parts.any (fun part => strStartsWith part ".") = true := by
      obtain ⟨rel, hrel⟩ := hsub f (List.mem_cons_self f rest)
      rw [hrel, List.any_append, hroot, Bool.true_or]
    have hrest := ih (fun g hg => hsub g (List.mem_cons_of_mem f hg))
    have hd := dump_file_of_hiddenPart f hf
    by_cases h1 : skipAsOutput o f
    · simp [processFiles, h1, hrest]
    · by_cases h2 : is_excluded f.resolved excl
      · simp [processFiles, h1, h2, hrest]
      · simp [processFiles, h1, h2, hrest, renderOne, hd]

/-- C9 witness: root `.config/app` — its file `x.py` yields no sink output
and no diagnostics. -/
theorem C9_hidden_component_silences_run_witness :
    processFiles none [] [⟨[".config", "app", "x.py"],
        ["home", ".config", "app", "x.py"], true, .bytes [104]⟩] = ([], []) :=
  C9_hidden_component_silences_run.2 none [] [".config", "app"]
    [⟨[".config", "app", "x.py"], ["home", ".config", "app", "x.py"], true, .bytes [104]⟩]
    (by decide)
    (fun f hf => by
      rw [List.mem_singleton] at hf
      exact ⟨["x.py"], by rw [hf]; decide⟩)

/-- C10: for each argument of the Markdown-to-PDF tool — a non-file is
reported and skipped, a non-`.md` file is reported and skipped (processing
continuing with the rest either way); an accepted `.md` argument invokes
the external converter with the fixed argument vector
`pandoc -o <sibling .pdf> -t html <path>`, and a non-zero exit of that
process aborts the whole invocation, leaving later arguments unprocessed. -/
theorem C10_md2pdf_skip_reported_and_nonzero_exit_fatal :
    ∀ (exitOf : List String → Nat) (a : MdArg) (rest : List MdArg),
      (a.isFile = false →
        md2pdf_run exitOf (a :: rest) =
          (("Error: " ++ a.path ++ " is not a file.") :: (md2pdf_run exitOf rest).1,
           (md2pdf_run exitOf rest).2.1, (md2pdf_run exitOf rest).2.2)) ∧
      (a.isFile = true → pySuffix (mdName a.path) ≠ ".md" →
        md2pdf_run exitOf (a :: rest) =
          (("Error: " ++ a.path ++ " is not a markdown file.") :: (md2pdf_run exitOf rest).1,
           (md2pdf_run exitOf rest).2.1, (md2pdf_run exitOf rest).2.2)) ∧
      (a.isFile = true → pySuffix (mdName a.path) = ".md" →
        exitOf (pandocCmd a.path) = 0 →
        md2pdf_run exitOf (a :: rest) =
          ((md2pdf_run exitOf rest).1,
           pandocCmd a.path :: (md2pdf_run exitOf rest).2.1,
           (md2pdf_run exitOf rest).2.2)) ∧
      (a.isFile = true → pySuffix (mdName a.path) = ".md" →
        exitOf (pandocCmd a.path) ≠ 0 →
        md2pdf_run exitOf (a :: rest) = ([], [pandocCmd a.path], true)) := by
  intro exitOf a rest
  refine ⟨fun h1 => ?_, fun h1 h2 => ?_, fun h1 h2 h3 => ?_, fun h1 h2 h3 => ?_⟩
  · simp [md2pdf_run, h1]
  · simp [md2pdf_run, h1, h2]
  · simp [md2pdf_run, h1, h2, h3]
  · simp [md2pdf_run, h1, h2, h3]

/-- C10 witness: a missing file and a non-markdown file are reported and
skipped with processing continuing; a good `.md` file invokes pandoc with
the fixed arguments; a failing conversion aborts before later arguments. -/
theorem C10_md2pdf_skip_reported_and_nonzero_exit_fatal_witness :
    md2pdf_run (fun c => if c = pandocCmd "bad.md" then 1 else 0)
        [⟨"missing.md", false⟩, ⟨"notes.txt", true⟩, ⟨"good.md", true⟩] =
      (["Error: missing.md is not a file.", "Error: notes.txt is not a markdown file."],
       [["pandoc", "-o", "good.pdf", "-t", "html", "good.md"]], false) ∧
    md2pdf_run (fun c => if c = pandocCmd "bad.md" then 1 else 0)
        [⟨"bad.md", true⟩, ⟨"good.md", true⟩] =
      ([], [["pandoc", "-o", "bad.pdf", "-t", "html", "bad.md"]], true) := by
  constructor
  · exact ((C10_md2pdf_skip_reported_and_nonzero_exit_fatal
        (fun c => if c = pandocCmd "bad.md" then 1 else 0) ⟨"missing.md", false⟩
        [⟨"notes.txt", true⟩, ⟨"good.md", true⟩]).1 rfl).trans (by decide)
  · exact ((C10_md2pdf_skip_reported_and_nonzero_exit_fatal
        (fun c => if c = pandocCmd "bad.md" then 1 else 0) ⟨"bad.md", true⟩
        [⟨"good.md", true⟩]).2.2.2 rfl (by decide) (by decide)).trans (by decide)
